import Mathlib

set_option maxRecDepth 8192

/-!
Verification of the Athena connection driver (`src/ls/driver.ts`) against its
natural-language specification.  The driver is shallowly embedded: each remote
call (Athena, S3, Glue) is an input oracle, JavaScript strings are Lean
`String`s, and JavaScript's fallible / possibly-undefined values are `Except` /
`Option`.
-/

namespace AthenaDriver

/-! ## JavaScript primitives used by the driver -/

/-- JavaScript `str.split(sep)` for a single-character separator (the driver
only splits on `'\n'`, `','` and `'/'`).  Matches JS semantics: `"".split(s)`
is `[""]` and a trailing separator yields a trailing empty segment. -/
def jsSplit (sep : Char) (s : String) : List String :=
  (s.toList.splitOn sep).map (fun cs => String.mk cs)

/-- JavaScript `parts.join(sep)` for a single-character separator. -/
def jsJoin (sep : Char) (parts : List String) : String :=
  String.mk (List.intercalate [sep] (parts.map (fun p => p.toList)))

/-- JavaScript truthiness of a possibly-undefined string value
(`undefined` and `''` are falsy, every other string is truthy). -/
def jsTruthy : Option String → Bool
  | none => false
  | some s => s != ""

/-! ## Query Execution Engine (`rawQuery`, `query`)

`rawQuery` submits the statement, polls `getQueryExecution` until the state is
in `endStatus = new Set(['FAILED', 'SUCCEEDED', 'CANCELLED'])`, throws on
`FAILED`, and otherwise fetches the first results page (for column names) and
the full result object from S3, parsing it as comma/newline separated text. -/

/-- Athena query execution states.  The driver compares the polled
`Status.State` against the `endStatus` set. -/
inductive ExecState
  | queued
  | running
  | succeeded
  | failed
  | cancelled
deriving DecidableEq, Repr

/-- Membership in `endStatus = new Set(['FAILED', 'SUCCEEDED', 'CANCELLED'])`. -/
def ExecState.isTerminal : ExecState → Bool
  | .succeeded => true
  | .failed => true
  | .cancelled => true
  | _ => false

/-- One `getQueryExecution` response: `Status.State`, `Status.StateChangeReason`
and `ResultConfiguration.OutputLocation`. -/
structure QueryStatus where
  state : ExecState
  stateChangeReason : String
  outputLocation : String
deriving DecidableEq, Repr

/-- The polling `do { ... } while (!endStatus.has(...))` loop of `rawQuery`:
successive `getQueryExecution` responses are an input stream, and the loop
stops at the first response whose state is terminal.  `none` models the loop
never observing a terminal status (the real loop would spin forever). -/
def pollFirstTerminal : List QueryStatus → Option QueryStatus
  | [] => none
  | s :: rest => if s.state.isTerminal then some s else pollFirstTerminal rest

/-- The first `getQueryResults` page.  `rawQuery` uses only its column
metadata: `core_result.ResultSet.ResultSetMetadata.ColumnInfo.map(info => info.Name)`. -/
structure FirstResultsPage where
  columnNames : List String
deriving DecidableEq, Repr

/-- The remote environment one `rawQuery` call runs against: the stream of
poll responses, the first results page, and the S3 `getObject` oracle
(bucket, key ↦ body or error); the bucket is `Option` because the JS
`split('/')[2]` can be `undefined`. -/
structure RawQueryEnv where
  statuses : List QueryStatus
  firstPage : FirstResultsPage
  fetchObject : Option String → String → Except String String

/-- `const bucket = ...OutputLocation.split('/')[2]` (`undefined` when the
location has fewer than three segments). -/
def bucketOf (loc : String) : Option String :=
  (jsSplit '/' loc).get? 2

/-- `const key = ...OutputLocation.split('/').slice(3).join('/')`. -/
def keyOf (loc : String) : String :=
  jsJoin '/' ((jsSplit '/' loc).drop 3)

/-- `let resultsJson = resultsBase.split('\n').map(row => row.split(','))`. -/
def csvCells (content : String) : List (List String) :=
  (jsSplit '\n' content).map (fun row => jsSplit ',' row)

/-- The per-row object built by
`columns.forEach((column, i) => { resultToAppend[column] = row[i] })`:
the pair list (column name, `row[i]`), where `row[i]` is `undefined` (`none`)
when the parsed row is shorter than the column list.  JavaScript object keying
would collapse duplicate column names; the theorems below only evaluate rows
over distinct names. -/
def rowObject (columns : List String) (row : List String) : List (String × Option String) :=
  columns.enum.map (fun p => (p.2, row.get? p.1))

/-- `resultsJson.shift()` (drop the column-header line) followed by the
`resultsJson.forEach` loop building one object per remaining line. -/
def bulkResults (columns : List String) (content : String) :
    List (List (String × Option String)) :=
  ((csvCells content).drop 1).map (fun row => rowObject columns row)

/-- The record `{ columns: columns, results: resultSet }` returned by
`rawQuery`.  Note it is a plain object with exactly these two properties. -/
structure RawResult where
  columns : List String
  results : List (List (String × Option String))
deriving DecidableEq, Repr

/-- Errors thrown inside `rawQuery`: the `new Error(...StateChangeReason)`
raised on a FAILED status, and a rejected S3 `getObject`. -/
inductive DriverErr
  | executionFailed (reason : String)
  | s3Error (msg : String)
deriving DecidableEq, Repr

instance {ε α : Type} [DecidableEq ε] [DecidableEq α] : DecidableEq (Except ε α) := fun a b =>
  match a, b with
  | .ok x, .ok y => if h : x = y then .isTrue (by simp [h]) else .isFalse (by simp [h])
  | .error x, .error y => if h : x = y then .isTrue (by simp [h]) else .isFalse (by simp [h])
  | .ok _, .error _ => .isFalse (by simp)
  | .error _, .ok _ => .isFalse (by simp)

/-- The result-retrieval tail of `rawQuery` (everything after the FAILED
check): take the column names from the first results page, fetch the S3
object at the bucket/key derived from the final status's output location, and
parse it.  Note this code never inspects `finalStatus.state`. -/
def retrieveResults (env : RawQueryEnv) (finalStatus : QueryStatus) :
    Except DriverErr RawResult :=
  let columns := env.firstPage.columnNames
  match env.fetchObject (bucketOf finalStatus.outputLocation) (keyOf finalStatus.outputLocation) with
  | .error e => .error (.s3Error e)
  | .ok body => .ok ⟨columns, bulkResults columns body⟩

/-- `rawQuery`: poll until terminal, throw `new Error(StateChangeReason)` on
FAILED, otherwise retrieve and parse results.  `none` models the poll loop
never terminating.  The source checks only `State === 'FAILED'`: both
SUCCEEDED and CANCELLED fall through to result retrieval. -/
def rawQuery (env : RawQueryEnv) : Option (Except DriverErr RawResult) :=
  match pollFirstTerminal env.statuses with
  | none => none
  | some st =>
      if st.state = .failed then
        some (.error (.executionFailed st.stateChangeReason))
      else
        some (retrieveResults env st)

/-- The `NSDatabase.IResult` fields of interest produced by `query`. -/
structure QueryResponse where
  cols : List String
  results : List (List (String × Option String))
  message : String
deriving DecidableEq, Repr

/-- The public `query` entry point: runs `rawQuery` and wraps its columns and
result set (errors propagate to the caller unchanged). -/
def queryRun (env : RawQueryEnv) : Option (Except DriverErr QueryResponse) :=
  (rawQuery env).map (fun r =>
    r.map (fun raw =>
      ⟨raw.columns, raw.results, "Query ok with " ++ toString raw.results.length ++ " results"⟩))

/-! ## C3 -/

/-- C3: for every execution whose polled terminal status is FAILED, `execute`
fails with an error carrying exactly the reason string provided in the
terminal status payload, unmodified. -/
theorem c3_failed_carries_exact_reason (env : RawQueryEnv) (st : QueryStatus)
    (hpoll : pollFirstTerminal env.statuses = some st) (hst : st.state = .failed) :
    queryRun env = some (.error (.executionFailed st.stateChangeReason)) := by
  simp [queryRun, rawQuery, hpoll, hst, Except.map]

/-- C3 witness: a concrete run whose second poll response is FAILED with
reason `"exact reason"` fails with exactly that reason. -/
theorem c3_failed_carries_exact_reason_witness :
    queryRun ⟨[⟨.running, "", ""⟩, ⟨.failed, "exact reason", "s3://b/k"⟩],
              ⟨[]⟩, fun _ _ => .error "unreachable"⟩
      = some (.error (.executionFailed "exact reason")) :=
  c3_failed_carries_exact_reason _ ⟨.failed, "exact reason", "s3://b/k"⟩ (by decide) rfl

/-! ## C1 -/

/-- C1 counterexample: a concrete run whose polled terminal status is
CANCELLED does not fail — `rawQuery` proceeds to retrieval and `query`
returns a non-empty result set, contradicting the claim that `execute`
fails with `ExecutionCancelled` and returns no rows. -/
theorem c1_cancelled_counterexample :
    queryRun ⟨[⟨.running, "", ""⟩, ⟨.cancelled, "Query cancelled by user", "s3://bkt/out.csv"⟩],
              ⟨["c"]⟩, fun _ _ => .ok "c\nv"⟩
      = some (.ok ⟨["c"], [[("c", some "v")]], "Query ok with 1 results"⟩)
    ∧ ([[("c", some "v")]] : List (List (String × Option String))) ≠ [] := by
  exact ⟨by decide, by decide⟩

/-- C1 amended: on a CANCELLED terminal status `rawQuery` does not throw
anything — only FAILED throws — and the call proceeds to result retrieval
exactly as it would for a SUCCEEDED status with the same payload; in
particular it never fails with the execution-failed error. -/
theorem c1_cancelled_proceeds_like_succeeded (env : RawQueryEnv) (st : QueryStatus)
    (hpoll : pollFirstTerminal env.statuses = some st) (hst : st.state = .cancelled) :
    queryRun env
      = queryRun ⟨[⟨.succeeded, st.stateChangeReason, st.outputLocation⟩],
                  env.firstPage, env.fetchObject⟩
    ∧ ∀ reason, queryRun env ≠ some (.error (.executionFailed reason)) := by
  have hr : rawQuery env = some (retrieveResults env st) := by
    simp [rawQuery, hpoll, hst]
  have hr2 : rawQuery ⟨[⟨.succeeded, st.stateChangeReason, st.outputLocation⟩],
                       env.firstPage, env.fetchObject⟩
      = some (retrieveResults env st) := by
    simp [rawQuery, pollFirstTerminal, ExecState.isTerminal, retrieveResults]
  constructor
  · simp only [queryRun, hr, hr2]
  · intro reason hcontra
    simp only [queryRun, hr, Option.map_some, Option.some_inj] at hcontra
    revert hcontra
    unfold retrieveResults
    cases env.fetchObject (bucketOf st.outputLocation) (keyOf st.outputLocation) <;>
      simp [Except.map]

/-- C1 amended witness: a concrete CANCELLED run equals the corresponding
SUCCEEDED run and does not produce an execution-failed error. -/
theorem c1_cancelled_proceeds_like_succeeded_witness :
    queryRun ⟨[⟨.cancelled, "x", "s3://w/o.csv"⟩], ⟨["a"]⟩, fun _ _ => .ok "a"⟩
      = queryRun ⟨[⟨.succeeded, "x", "s3://w/o.csv"⟩], ⟨["a"]⟩, fun _ _ => .ok "a"⟩
    ∧ queryRun ⟨[⟨.cancelled, "x", "s3://w/o.csv"⟩], ⟨["a"]⟩, fun _ _ => .ok "a"⟩
        ≠ some (.error (.executionFailed "reason")) :=
  ⟨(c1_cancelled_proceeds_like_succeeded _ ⟨.cancelled, "x", "s3://w/o.csv"⟩ (by decide) rfl).1,
   (c1_cancelled_proceeds_like_succeeded _ ⟨.cancelled, "x", "s3://w/o.csv"⟩ (by decide) rfl).2 "reason"⟩

/-! ## C9 -/

/-- C9: for every execution reaching SUCCEEDED whose result is retrieved via
the bulk S3 object, the returned row count equals the number of
newline-separated segments of the fetched object minus one (the header line);
a header-only object (a single segment, i.e. a zero-row result) yields an
empty result list, not an error. -/
theorem c9_bulk_rowcount_is_linecount_minus_header (env : RawQueryEnv) (st : QueryStatus)
    (content : String)
    (hpoll : pollFirstTerminal env.statuses = some st) (hst : st.state = .succeeded)
    (hfetch : env.fetchObject (bucketOf st.outputLocation) (keyOf st.outputLocation)
                = .ok content) :
    rawQuery env
      = some (.ok ⟨env.firstPage.columnNames, bulkResults env.firstPage.columnNames content⟩)
    ∧ (bulkResults env.firstPage.columnNames content).length
        = (jsSplit '\n' content).length - 1
    ∧ ((jsSplit '\n' content).length = 1
        → bulkResults env.firstPage.columnNames content = []) := by
  refine ⟨?_, ?_, ?_⟩
  · simp [rawQuery, hpoll, hst, retrieveResults, hfetch]
  · simp [bulkResults, csvCells]
  · intro h1
    have hdrop : (csvCells content).drop 1 = [] := by
      apply List.drop_eq_nil_of_le
      simp [csvCells, h1]
    simp [bulkResults, hdrop]

/-- C9 witness: a SUCCEEDED run whose object is the single header line `"c"`
returns zero rows, and a two-line object yields exactly one row. -/
theorem c9_bulk_rowcount_is_linecount_minus_header_witness :
    rawQuery ⟨[⟨.succeeded, "", "s3://b/k.csv"⟩], ⟨["c"]⟩, fun _ _ => .ok "c"⟩
      = some (.ok ⟨["c"], bulkResults ["c"] "c"⟩)
    ∧ (bulkResults ["c"] "c").length = (jsSplit '\n' "c").length - 1
    ∧ ((jsSplit '\n' "c").length = 1 → bulkResults ["c"] "c" = []) :=
  c9_bulk_rowcount_is_linecount_minus_header _ ⟨.succeeded, "", "s3://b/k.csv"⟩ "c"
    (by decide) rfl rfl

/-! ## Result Materializer: paged-API strategy

The repository's other driver variant materializes rows from the paged
`getQueryResults` API: each cell is a `Datum` whose `VarCharValue` is absent
for a NULL cell and `""` for a present empty string. -/

/-- One Athena `Datum`. -/
structure AthenaDatum where
  varCharValue : Option String
deriving DecidableEq, Repr

/-- The row object built by the paged strategy:
`Object.assign({}, ...Data.map((column, i) => ({ [columns[i]]: column.VarCharValue })))`
— the pair list (property key, `VarCharValue`), where a missing `columns[i]`
stringifies to the JS property key `"undefined"`.  Duplicate keys would
collapse; the theorems only evaluate rows over distinct names. -/
def pagedRowObject (columns : List String) (data : List AthenaDatum) :
    List (String × Option String) :=
  data.enum.map (fun p => ((columns.get? p.1).getD "undefined", p.2.varCharValue))

/-! ## C4 -/

/-- C4 counterexample: the bulk strategy does not preserve the null/empty
distinction in general.  The two objects are the service's CSV renderings of
a two-column row whose first cell is the quoted text `x,y` and whose second
cell is NULL (rendered as the empty field) resp. the empty string (rendered
as `""`): the naive comma split cuts inside the quoted field, the first two
fragments fill both columns, and the distinguishing third fragment is
dropped — both objects materialize to the identical row list. -/
theorem c4_bulk_comma_collapse_counterexample :
    bulkResults ["h1", "h2"] "h1,h2\n\"x,y\","
      = bulkResults ["h1", "h2"] "h1,h2\n\"x,y\",\"\""
    ∧ bulkResults ["h1", "h2"] "h1,h2\n\"x,y\","
      = [[("h1", some "\"x"), ("h2", some "y\"")]] := by
  refine ⟨by decide, by decide⟩

/-- C4 amended: the paged strategy copies each `VarCharValue` verbatim into
the row object, so absent (`none`), present-empty (`some ""`) and
present-non-empty cells stay a three-way distinction; the bulk strategy only
copies comma/newline-separated fragments verbatim, so it keeps a NULL cell
distinguishable from an empty-string cell exactly when the rendered fields
survive the naive split intact (here: a single-column object whose two
renderings are single comma-free segments, `rn ≠ re`, e.g. the unquoted
empty field vs `""`) — with a comma inside a quoted field the row misaligns
and the distinction can be lost. -/
theorem c4_null_empty_distinction_preserved (contentN contentE rn re : String)
    (hne : rn ≠ re)
    (hsn : jsSplit '\n' contentN = ["h", rn])
    (hse : jsSplit '\n' contentE = ["h", re])
    (hcn : jsSplit ',' rn = [rn])
    (hce : jsSplit ',' re = [re]) :
    bulkResults ["h"] contentN ≠ bulkResults ["h"] contentE
    ∧ ∀ (columns : List String) (data : List AthenaDatum),
        (pagedRowObject columns data).map Prod.snd
          = data.map (fun d => d.varCharValue) := by
  constructor
  · have h1 : bulkResults ["h"] contentN = [[("h", some rn)]] := by
      simp [bulkResults, csvCells, hsn, hcn, rowObject, List.enum, List.enumFrom]
    have h2 : bulkResults ["h"] contentE = [[("h", some re)]] := by
      simp [bulkResults, csvCells, hse, hce, rowObject, List.enum, List.enumFrom]
    rw [h1, h2]
    intro hcontra
    apply hne
    simpa using hcontra
  · intro columns data
    calc (pagedRowObject columns data).map Prod.snd
        = (data.enum.map Prod.snd).map (fun d => d.varCharValue) := by
          simp only [pagedRowObject, List.map_map]
          rfl
      _ = data.map (fun d => d.varCharValue) := by rw [List.enum_map_snd]

/-- C4 witness: with the service's CSV encoding (NULL rendered as the empty
field, an empty string rendered as `""`), the two bulk objects materialize to
different rows, and the paged mapping preserves an absent cell verbatim. -/
theorem c4_null_empty_distinction_preserved_witness :
    bulkResults ["h"] "h\n" ≠ bulkResults ["h"] "h\n\"\""
    ∧ (pagedRowObject ["h"] [⟨none⟩]).map Prod.snd
        = [AthenaDatum.mk none].map (fun d => d.varCharValue) :=
  ⟨(c4_null_empty_distinction_preserved "h\n" "h\n\"\"" "" "\"\""
      (by decide) (by decide) (by decide) (by decide) (by decide)).1,
   (c4_null_empty_distinction_preserved "h\n" "h\n\"\"" "" "\"\""
      (by decide) (by decide) (by decide) (by decide) (by decide)).2 ["h"] [⟨none⟩]⟩

/-! ## Client construction and region defaulting -/

/-- The driver's connection credentials (`this.credentials`); every field the
client constructions read. -/
structure CredentialsSpec where
  connectionMethod : Option String
  accessKeyId : Option String
  secretAccessKey : Option String
  sessionToken : Option String
  profile : Option String
  region : Option String
  workgroup : Option String
  outputLocation : Option String
deriving DecidableEq, Repr

/-- The credentials object handed to a client: explicit keys (`new
Credentials({...})`) or an INI profile (`new SharedIniFileCredentials({...})`). -/
inductive CredChoice
  | explicitKeys (accessKeyId secretAccessKey sessionToken : Option String)
  | iniProfile (profile : Option String)
deriving DecidableEq, Repr

/-- `if (this.credentials.connectionMethod !== 'Profile') ... else ...` as it
appears in both `open` and `searchItems`. -/
def chooseCredentials (c : CredentialsSpec) : CredChoice :=
  if c.connectionMethod ≠ some "Profile" then
    .explicitKeys c.accessKeyId c.secretAccessKey c.sessionToken
  else
    .iniProfile c.profile

/-- `this.credentials.region || 'us-east-1'` — JavaScript `||` falls back on
any falsy value, so both an absent region and the empty string default. -/
def jsRegionOrDefault (c : CredentialsSpec) : String :=
  match c.region with
  | none => "us-east-1"
  | some r => if r = "" then "us-east-1" else r

/-- Configuration of the Athena client built in `open`. -/
structure AthenaClientConfig where
  credentials : CredChoice
  region : String
deriving DecidableEq, Repr

/-- Configuration of the S3 client built inside `rawQuery`. -/
structure S3ClientConfig where
  apiVersion : String
  region : String
  credentials : CredChoice
deriving DecidableEq, Repr

/-- Configuration of the Glue client built in `searchItems`. -/
structure GlueClientConfig where
  credentials : CredChoice
  region : String
deriving DecidableEq, Repr

/-- `new Athena({ credentials, region: this.credentials.region || 'us-east-1' })`. -/
def openAthenaConfig (c : CredentialsSpec) : AthenaClientConfig :=
  ⟨chooseCredentials c, jsRegionOrDefault c⟩

/-- `new S3({ apiVersion: '2006-03-01', region: ..., credentials: new
Credentials({...}) })` — note it always uses the explicit keys, even in
Profile mode. -/
def rawQueryS3Config (c : CredentialsSpec) : S3ClientConfig :=
  ⟨"2006-03-01", jsRegionOrDefault c,
   .explicitKeys c.accessKeyId c.secretAccessKey c.sessionToken⟩

/-- `new Glue({ credentials, region: this.credentials.region || 'us-east-1' })`. -/
def searchItemsGlueConfig (c : CredentialsSpec) : GlueClientConfig :=
  ⟨chooseCredentials c, jsRegionOrDefault c⟩

/-! ## C10 -/

/-- C10: with no region configured, all three constructed clients — the Athena
client in `open`, the S3 client in `rawQuery` and the Glue client in
`searchItems` — are configured with the fixed default region `us-east-1`. -/
theorem c10_default_region_us_east_1 (c : CredentialsSpec) (h : c.region = none) :
    (openAthenaConfig c).region = "us-east-1"
    ∧ (rawQueryS3Config c).region = "us-east-1"
    ∧ (searchItemsGlueConfig c).region = "us-east-1" := by
  simp [openAthenaConfig, rawQueryS3Config, searchItemsGlueConfig, jsRegionOrDefault, h]

/-- C10 witness: a concrete profile with no region gets `us-east-1` in all
three clients. -/
theorem c10_default_region_us_east_1_witness :
    (openAthenaConfig ⟨some "Keys", some "ak", some "sk", none, none, none,
                       some "primary", some "s3://b/out"⟩).region = "us-east-1"
    ∧ (rawQueryS3Config ⟨some "Keys", some "ak", some "sk", none, none, none,
                         some "primary", some "s3://b/out"⟩).region = "us-east-1"
    ∧ (searchItemsGlueConfig ⟨some "Keys", some "ak", some "sk", none, none, none,
                              some "primary", some "s3://b/out"⟩).region = "us-east-1" :=
  c10_default_region_us_east_1 _ rfl

/-! ## Catalog Walker (`getChildrenForGroup`) -/

/-- One `listDataCatalogs` response: the `DataCatalogsSummary` catalog names
plus the optional `NextToken` (which the source never reads). -/
structure CatalogPage where
  catalogNames : List String
  nextToken : Option String
deriving DecidableEq, Repr

/-- A catalog tree node (`database`, `label`, `schema`). -/
structure CatalogNode where
  database : String
  label : String
  schema : String
deriving DecidableEq, Repr

/-- The `ContextValue.SCHEMA` case of `getChildrenForGroup`: a single
`listDataCatalogs()` call — the backend's response to a request with no
cursor — mapped to nodes.  There is no pagination loop in the source, so the
second component, the number of remote calls made, is the constant 1. -/
def catalogGroupChildren (backend : Option String → CatalogPage) :
    List CatalogNode × Nat :=
  ((backend none).catalogNames.map (fun name => ⟨"", name, name⟩), 1)

/-- One database entry of a `listDatabases` response (`Name`, `Description`). -/
structure GlueDatabase where
  name : String
  description : Option String
deriving DecidableEq, Repr

/-- One `listDatabases` response page. -/
structure DbPage where
  databaseList : List GlueDatabase
  nextToken : Option String
deriving DecidableEq, Repr

/-- A database tree node. -/
structure DbNode where
  database : String
  detail : Option String
  label : String
  schema : String
deriving DecidableEq, Repr

/-- The node built for one listed database. -/
def dbNodeOf (parentSchema : String) (d : GlueDatabase) : DbNode :=
  ⟨d.name, d.description, d.name, parentSchema⟩

/-- The `ContextValue.DATABASE` case of `getChildrenForGroup`: the
`while (firstBatch == true || nextToken !== null)` loop.  Each iteration
makes one `listDatabases` call (consuming the next response of the input
stream), appends the page's nodes, takes the page's `NextToken`, and the
loop exits exactly when that token is absent.  Returns the accumulated nodes
together with the number of calls made; `none` models exhausting the response
stream with the loop still running. -/
def databaseGroupChildren (parentSchema : String) :
    List DbPage → Option (List DbNode × Nat)
  | [] => none
  | p :: rest =>
      match p.nextToken with
      | none => some (p.databaseList.map (dbNodeOf parentSchema), 1)
      | some _ =>
          match databaseGroupChildren parentSchema rest with
          | none => none
          | some (nodes, n) =>
              some (p.databaseList.map (dbNodeOf parentSchema) ++ nodes, n + 1)

/-- A well-formed N-page backend trace: every page but the last carries a
`NextToken`, and the last page does not. -/
def wfPages : List DbPage → Bool
  | [] => false
  | [p] => p.nextToken.isNone
  | p :: rest => p.nextToken.isSome && wfPages rest

/-- Unfolding step for the database drain loop: a page carrying a
`NextToken` contributes its nodes and one call on top of the drain of the
remaining responses. -/
theorem databaseGroupChildren_cons_some (parentSchema : String) (p : DbPage)
    (rest : List DbPage) (t : String) (ht : p.nextToken = some t) :
    databaseGroupChildren parentSchema (p :: rest)
      = match databaseGroupChildren parentSchema rest with
        | none => none
        | some (nodes, n) =>
            some (p.databaseList.map (dbNodeOf parentSchema) ++ nodes, n + 1) := by
  conv_lhs => rw [databaseGroupChildren]
  rw [ht]

/-! ## C5 -/

/-- C5 counterexample: a catalog backend with two pages (the first response
carries a `NextToken`) is called exactly once, not twice, and the second
page's catalog never appears — the catalog listing driven by `children` is
not fully drained, contradicting the claim for the catalog listing. -/
theorem c5_catalog_listing_not_drained_counterexample :
    (catalogGroupChildren (fun cursor =>
        match cursor with
        | none => ⟨["c1"], some "page2"⟩
        | some _ => ⟨["c2"], none⟩)).2 = 1
    ∧ (catalogGroupChildren (fun cursor =>
        match cursor with
        | none => ⟨["c1"], some "page2"⟩
        | some _ => ⟨["c2"], none⟩)).2 ≠ 2
    ∧ (⟨"", "c2", "c2"⟩ : CatalogNode) ∉ (catalogGroupChildren (fun cursor =>
        match cursor with
        | none => ⟨["c1"], some "page2"⟩
        | some _ => ⟨["c2"], none⟩)).1 := by
  refine ⟨rfl, by decide, by decide⟩

/-- C5 amended: the database listing is fully drained — one `listDatabases`
call per page, stopping exactly when the response carries no `NextToken`, so
a well-formed N-page backend is called exactly N times and contributes every
page's entries in page order (responses past the stopping page are never
consumed) — while the catalog listing makes exactly one `listDataCatalogs`
call and returns only the first response's catalogs. -/
theorem c5_database_listing_drained_catalog_single_call :
    (∀ backend : Option String → CatalogPage,
        catalogGroupChildren backend
          = ((backend none).catalogNames.map (fun name => ⟨"", name, name⟩), 1))
    ∧ (∀ (parentSchema : String) (pages rest : List DbPage), wfPages pages = true →
        databaseGroupChildren parentSchema (pages ++ rest)
          = some (pages.flatMap (fun p => p.databaseList.map (dbNodeOf parentSchema)),
                  pages.length)) := by
  constructor
  · intro backend
    rfl
  · intro parentSchema pages
    induction pages with
    | nil => intro rest h; simp [wfPages] at h
    | cons p ps ih =>
        intro rest h
        cases ps with
        | nil =>
            simp only [wfPages, Option.isNone_iff_eq_none] at h
            simp [databaseGroupChildren, h]
        | cons q qs =>
            simp only [wfPages, Bool.and_eq_true, Option.isSome_iff_exists] at h
            obtain ⟨⟨t, ht⟩, hwf⟩ := h
            have hrec := ih rest hwf
            rw [List.cons_append, databaseGroupChildren_cons_some parentSchema p _ t ht,
              hrec]
            simp [List.append_assoc]

/-- C5 amended witness: a concrete three-page database backend is called
exactly three times and returns all three pages' databases in order, while a
concrete catalog backend is called once. -/
theorem c5_database_listing_drained_catalog_single_call_witness :
    catalogGroupChildren (fun _ => ⟨["c1"], none⟩)
      = ([⟨"", "c1", "c1"⟩], 1)
    ∧ databaseGroupChildren "cat"
        ([⟨[⟨"d1", none⟩], some "t1"⟩, ⟨[⟨"d2", some "x"⟩], some "t2"⟩,
          ⟨[⟨"d3", none⟩], none⟩] ++ [⟨[⟨"junk", none⟩], none⟩])
      = some ([⟨"d1", none, "d1", "cat"⟩, ⟨"d2", some "x", "d2", "cat"⟩,
               ⟨"d3", none, "d3", "cat"⟩], 3) :=
  ⟨c5_database_listing_drained_catalog_single_call.1 (fun _ => ⟨["c1"], none⟩),
   by
    have h := c5_database_listing_drained_catalog_single_call.2 "cat"
      [⟨[⟨"d1", none⟩], some "t1"⟩, ⟨[⟨"d2", some "x"⟩], some "t2"⟩, ⟨[⟨"d3", none⟩], none⟩]
      [⟨[⟨"junk", none⟩], none⟩] (by decide)
    simpa using h⟩

/-! ## The table / view groups (`ContextValue.TABLE` / `ContextValue.VIEW`) -/

/-- One Athena `Row` of a `GetQueryResults` page (its `Data` array). -/
structure AthenaRow where
  data : List AthenaDatum
deriving DecidableEq, Repr

/-- The `ResultSet.Rows` shape the table/view group code expects `rawQuery`
to return an array of (as the repository's paged-strategy variant did). -/
structure AthenaResultPage where
  rows : List AthenaRow
deriving DecidableEq, Repr

/-- JavaScript numeric indexing `r[0]` applied to the record
`{ columns, results }` that `rawQuery` actually returns: the record has no
numeric properties, so the access yields `undefined` for every index. -/
def rawResultIndex (_r : RawResult) (_i : Nat) : Option AthenaResultPage :=
  none

/-- Errors arising in the catalog walker and search: a propagated `rawQuery`
error, or the TypeError thrown by a property access on `undefined`. -/
inductive WalkerErr
  | driver (e : DriverErr)
  | typeError
deriving DecidableEq, Repr

/-- `row.Data[0].VarCharValue`: `none` when the row has no first datum — in
that case the JS property access would itself throw. -/
def rowFirstValue (r : AthenaRow) : Option (Option String) :=
  (r.data.get? 0).map (fun d => d.varCharValue)

/-- What the `ContextValue.TABLE` branch computes from properly shaped result
pages: `viewsSet` is the set of view names, and the combined tables-and-views
rows are filtered to those whose name is not in it (set-difference matched by
name). -/
def tableGroupFromPages (tablesPage viewsPage : AthenaResultPage) :
    Except WalkerErr (List (Option String)) :=
  match viewsPage.rows.mapM rowFirstValue with
  | none => .error .typeError
  | some viewNames =>
      match tablesPage.rows.mapM rowFirstValue with
      | none => .error .typeError
      | some tableNames => .ok (tableNames.filter (fun n => !(viewNames.contains n)))

/-- The `ContextValue.TABLE` case of `getChildrenForGroup`: two `rawQuery`
calls (`SHOW TABLES IN ...` then `SHOW VIEWS IN ...`), then
`views[0].ResultSet.Rows` — but `rawQuery` returns the record
`{ columns, results }`, so the numeric index yields `undefined` and the
`.ResultSet` access throws a TypeError before any set-difference happens. -/
def tableGroupChildren (envTables envViews : RawQueryEnv) :
    Option (Except WalkerErr (List (Option String))) :=
  match rawQuery envTables with
  | none => none
  | some (.error e) => some (.error (.driver e))
  | some (.ok tables) =>
      match rawQuery envViews with
      | none => none
      | some (.error e) => some (.error (.driver e))
      | some (.ok views) =>
          match rawResultIndex views 0 with
          | none => some (.error .typeError)
          | some viewsPage =>
              match rawResultIndex tables 0 with
              | none => some (.error .typeError)
              | some tablesPage => some (tableGroupFromPages tablesPage viewsPage)

/-- The `ContextValue.VIEW` case: one `SHOW VIEWS` `rawQuery` call, then
`views2[0].ResultSet.Rows` — the same `undefined` numeric index, hence the
same TypeError. -/
def viewGroupChildren (envViews : RawQueryEnv) :
    Option (Except WalkerErr (List (Option String))) :=
  match rawQuery envViews with
  | none => none
  | some (.error e) => some (.error (.driver e))
  | some (.ok views) =>
      match rawResultIndex views 0 with
      | none => some (.error .typeError)
      | some viewsPage =>
          match viewsPage.rows.mapM rowFirstValue with
          | none => some (.error .typeError)
          | some names => some (.ok names)

/-! ## C2 -/

/-- C2: on a database whose combined listing succeeds with `{A, B, C}` and
whose views listing succeeds with `{B}`, both the Table group and the View
group throw a TypeError instead of returning the set-difference `{A, C}` and
the views `{B}`: `rawQuery` returns the record `{ columns, results }`, yet
the group code indexes it as `tables[0].ResultSet.Rows`.  The third conjunct
shows the (unreachable) set-difference code would return exactly `{A, C}`
from properly shaped pages, matching the claim's intent. -/
theorem c2_table_group_throws_typeerror :
    tableGroupChildren
        ⟨[⟨.succeeded, "", "s3://q/t.csv"⟩], ⟨["tab_name"]⟩,
         fun _ _ => .ok "tab_name\nA\nB\nC"⟩
        ⟨[⟨.succeeded, "", "s3://q/v.csv"⟩], ⟨["view_name"]⟩,
         fun _ _ => .ok "view_name\nB"⟩
      = some (.error .typeError)
    ∧ viewGroupChildren
        ⟨[⟨.succeeded, "", "s3://q/v.csv"⟩], ⟨["view_name"]⟩,
         fun _ _ => .ok "view_name\nB"⟩
      = some (.error .typeError)
    ∧ tableGroupFromPages
        ⟨[AthenaRow.mk [⟨some "A"⟩], AthenaRow.mk [⟨some "B"⟩], AthenaRow.mk [⟨some "C"⟩]]⟩
        ⟨[AthenaRow.mk [⟨some "B"⟩]]⟩
      = .ok [some "A", some "C"] := by
  refine ⟨by decide, by decide, by decide⟩

/-! ## Search/Completion Index (`searchItems`) -/

/-- One successful `glue.getDatabases` response: the `DatabaseList` names
(a required member of the response, so the source's `if (data.DatabaseList)`
guard is always taken) and the optional `NextToken`. -/
structure GlueDbPage where
  databaseList : List String
  nextToken : Option String
deriving DecidableEq, Repr

/-- `uniqueDbs[db.Name] = dbDetails`: JavaScript object insertion — a fresh
name appends a key, an existing name overwrites its value in place (the key
keeps its first-insertion position).  Every field of the stored item is
derived from the name alone, so tracking the key list captures the map. -/
def objKeyInsert (keys : List String) (k : String) : List String :=
  if keys.contains k then keys else keys ++ [k]

/-- The `ContextValue.DATABASE` case of `searchItems`: the
`while (dbNextToken == 'first' || dbNextToken != null)` loop.  Each iteration
makes one `await glue.getDatabases(...).promise()` call, consuming the next
outcome of the stream.  On an errored call the callback only logs
(`if (err) console.log(err, err.stack)`), but the awaited `.promise()` still
rejects and — with no try/catch — the rejection aborts the whole
`searchItems` call: the loop result is that error.  A successful page folds
its names into `uniqueDbs` and takes the page's `NextToken`; the loop exits
exactly when that token is absent.  `none` models exhausting the outcome
stream with the loop still running.  Finally `for (const i in uniqueDbs)`
emits the keys in first-insertion order. -/
def searchDatabasesLoop :
    List (Except String GlueDbPage) → List String → Option (Except String (List String))
  | [], _ => none
  | .error e :: _, _ => some (.error e)
  | .ok p :: rest, acc =>
      let acc2 := p.databaseList.foldl objKeyInsert acc
      match p.nextToken with
      | none => some (.ok acc2)
      | some _ => searchDatabasesLoop rest acc2

/-- The database search: drain the paginated `getDatabases` listing into
`uniqueDbs` and return its keys (or propagate the first call's rejection). -/
def searchDatabases (pages : List (Except String GlueDbPage)) :
    Option (Except String (List String)) :=
  searchDatabasesLoop pages []

theorem objKeyInsert_nodup (keys : List String) (k : String) (h : keys.Nodup) :
    (objKeyInsert keys k).Nodup := by
  unfold objKeyInsert
  cases hc : keys.contains k with
  | true => simpa [hc] using h
  | false =>
      have hk : k ∉ keys := by simpa using hc
      simp [hc, List.nodup_append, h, hk]

theorem foldl_objKeyInsert_nodup (names : List String) (acc : List String)
    (h : acc.Nodup) : (names.foldl objKeyInsert acc).Nodup := by
  induction names generalizing acc with
  | nil => exact h
  | cons n ns ih => exact ih _ (objKeyInsert_nodup acc n h)

theorem searchDatabasesLoop_nodup (pages : List (Except String GlueDbPage))
    (acc out : List String) (hacc : acc.Nodup)
    (hrun : searchDatabasesLoop pages acc = some (.ok out)) : out.Nodup := by
  induction pages generalizing acc with
  | nil => simp [searchDatabasesLoop] at hrun
  | cons p rest ih =>
      cases p with
      | error e => simp [searchDatabasesLoop] at hrun
      | ok page =>
          simp only [searchDatabasesLoop] at hrun
          cases ht : page.nextToken with
          | none =>
              rw [ht] at hrun
              simp only [Option.some_inj, Except.ok.injEq] at hrun
              rw [← hrun]
              exact foldl_objKeyInsert_nodup page.databaseList acc hacc
          | some t =>
              rw [ht] at hrun
              exact ih _ (foldl_objKeyInsert_nodup page.databaseList acc hacc) hrun

/-! ## C6 -/

/-- C6: whatever successful pages the paginated `getDatabases` listing
returns — even the same database name on several pages — a database search
that returns a sequence returns at most one entry per name: its result has
no duplicate names. -/
theorem c6_database_search_dedup_by_name (pages : List (Except String GlueDbPage))
    (out : List String) (hrun : searchDatabases pages = some (.ok out)) :
    out.Nodup ∧ ∀ name, out.count name ≤ 1 := by
  have hnodup : out.Nodup := searchDatabasesLoop_nodup pages [] out (by simp) hrun
  exact ⟨hnodup, fun name => List.nodup_iff_count_le_one.mp hnodup name⟩

/-- C6 witness: a two-page listing returning `d` on both pages yields exactly
one entry named `d`. -/
theorem c6_database_search_dedup_by_name_witness :
    searchDatabases [.ok ⟨["d", "e"], some "t"⟩, .ok ⟨["d"], none⟩]
      = some (.ok ["d", "e"])
    ∧ List.Nodup ["d", "e"]
    ∧ List.count "d" ["d", "e"] ≤ 1 :=
  ⟨by decide,
   (c6_database_search_dedup_by_name
      [.ok ⟨["d", "e"], some "t"⟩, .ok ⟨["d"], none⟩] ["d", "e"] (by decide)).1,
   (c6_database_search_dedup_by_name
      [.ok ⟨["d", "e"], some "t"⟩, .ok ⟨["d"], none⟩] ["d", "e"] (by decide)).2 "d"⟩

/-! ## Table search (`ContextValue.TABLE` case of `searchItems`) -/

/-- The table search: read `_extraParams.database`; `if (!database) return []`
short-circuits to an empty list before any remote call.  Otherwise one
`SHOW TABLES` `rawQuery` call is made and its result indexed as
`tableResults[0].ResultSet.Rows` (the same `undefined` numeric index as the
catalog walker).  The second component counts the remote calls made. -/
def searchTables (env : RawQueryEnv) (database : Option String) :
    Option (Except WalkerErr (List (Option String))) × Nat :=
  if !(jsTruthy database) then (some (.ok []), 0)
  else
    match rawQuery env with
    | none => (none, 1)
    | some (.error e) => (some (.error (.driver e)), 1)
    | some (.ok tableResults) =>
        match rawResultIndex tableResults 0 with
        | none => (some (.error .typeError), 1)
        | some page =>
            match page.rows.mapM rowFirstValue with
            | none => (some (.error .typeError), 1)
            | some names => (some (.ok names), 1)

/-! ## C8 -/

/-- C8: a table search invoked without a `database` entry in `extraParams`
returns an empty sequence — not an error — and makes zero remote calls. -/
theorem c8_table_search_without_database_empty (env : RawQueryEnv)
    (database : Option String) (h : jsTruthy database = false) :
    searchTables env database = (some (.ok []), 0) := by
  simp [searchTables, h]

/-- C8 witness: with `database` absent, the result is the empty list with a
remote-call count of zero. -/
theorem c8_table_search_without_database_empty_witness :
    searchTables ⟨[], ⟨[]⟩, fun _ _ => .error "unused"⟩ none = (some (.ok []), 0) :=
  c8_table_search_without_database_empty _ none rfl

/-! ## Column search (`ContextValue.COLUMN` case of `searchItems`) -/

/-- A table reference from `extraParams.tables`. -/
structure TableRef where
  database : Option String
  label : String
deriving DecidableEq, Repr

/-- One column of a `getTableMetadata` response (`Name`, `Type`). -/
structure GlueColumn where
  name : String
  columnType : String
deriving DecidableEq, Repr

/-- A column item pushed by the column search. -/
structure ColumnItem where
  database : String
  label : String
  schema : String
  dataType : String
  table : String
deriving DecidableEq, Repr

/-- The success branch of the per-table `getTableMetadata` callback: a
response whose `TableMetadata.Columns` is present pushes one item per
column, tagged with the owning table's label (`table: table.label`); an
absent `Columns` pushes nothing. -/
def columnsOfSuccess (t : TableRef) (columns : Option (List GlueColumn)) :
    List ColumnItem :=
  match columns with
  | none => []
  | some cols =>
      cols.map (fun col =>
        ⟨t.database.getD "", col.name, t.database.getD "", col.columnType, t.label⟩)

/-- The loop of the column search: one
`await db.getTableMetadata(params, cb).promise()` per table (`lookup` is the
remote oracle).  On a failed lookup the callback only logs
(`console.log(err)`), but the awaited `.promise()` still rejects and — with
no try/catch — the rejection aborts the whole `searchItems` call at that
table; on success the callback's pushes accumulate and the loop continues. -/
def searchColumnsLoop (lookup : TableRef → Except String (Option (List GlueColumn))) :
    List TableRef → List ColumnItem → Except String (List ColumnItem)
  | [], acc => .ok acc
  | t :: ts, acc =>
      match lookup t with
      | .error e => .error e
      | .ok meta => searchColumnsLoop lookup ts (acc ++ columnsOfSuccess t meta)

/-- The column search over a batch of table references:
`const tables = _extraParams.tables.filter(t => t.database)`, then the
per-table loop. -/
def searchColumns (lookup : TableRef → Except String (Option (List GlueColumn)))
    (tables : List TableRef) : Except String (List ColumnItem) :=
  searchColumnsLoop lookup (tables.filter (fun t => jsTruthy t.database)) []

theorem searchColumnsLoop_all_ok
    (lookup : TableRef → Except String (Option (List GlueColumn)))
    (meta : TableRef → Option (List GlueColumn)) (ts : List TableRef)
    (acc : List ColumnItem) (h : ∀ t ∈ ts, lookup t = .ok (meta t)) :
    searchColumnsLoop lookup ts acc
      = .ok (acc ++ ts.flatMap (fun t => columnsOfSuccess t (meta t))) := by
  induction ts generalizing acc with
  | nil => simp [searchColumnsLoop]
  | cons t ts ih =>
      have ht := h t (List.mem_cons_self t ts)
      have hrest := ih (acc ++ columnsOfSuccess t (meta t))
        (fun u hu => h u (List.mem_cons_of_mem t hu))
      simp [searchColumnsLoop, ht, hrest, List.append_assoc]

/-! ## C7 -/

/-- C7 counterexample: with a lookup failing on table `bad` and succeeding
on table `good`, the batch does not continue past the failure — the whole
column search aborts with the lookup's error instead of returning `good`'s
columns tagged with `good`, contradicting the claimed skip-and-continue
behavior. -/
theorem c7_lookup_failure_aborts_counterexample :
    searchColumns
        (fun t => if t.label = "bad" then .error "boom"
                  else .ok (some [⟨"c1", "int"⟩]))
        [⟨some "db", "bad"⟩, ⟨some "db", "good"⟩]
      = .error "boom"
    ∧ searchColumns
        (fun t => if t.label = "bad" then .error "boom"
                  else .ok (some [⟨"c1", "int"⟩]))
        [⟨some "db", "bad"⟩, ⟨some "db", "good"⟩]
      ≠ .ok [⟨"db", "c1", "db", "int", "good"⟩] := by
  refine ⟨by decide, by decide⟩

/-- C7 amended: a failing metadata lookup is logged by the callback, but the
awaited promise rejection aborts the whole batch at that table — the
remaining tables are not processed and no sequence is returned; only when
every (database-filtered) lookup succeeds does the search return the
flattened columns of all the tables, each tagged with its owning table's
label. -/
theorem c7_column_search_aborts_on_failure
    (lookup : TableRef → Except String (Option (List GlueColumn)))
    (tables : List TableRef) :
    (∀ meta : TableRef → Option (List GlueColumn),
        (∀ t ∈ tables.filter (fun t => jsTruthy t.database), lookup t = .ok (meta t)) →
        searchColumns lookup tables
          = .ok ((tables.filter (fun t => jsTruthy t.database)).flatMap
              (fun t => columnsOfSuccess t (meta t))))
    ∧ ∀ (t : TableRef) (ts : List TableRef) (acc : List ColumnItem) (e : String),
        lookup t = .error e →
        searchColumnsLoop lookup (t :: ts) acc = .error e := by
  constructor
  · intro meta hall
    rw [searchColumns, searchColumnsLoop_all_ok lookup meta _ [] hall]
    simp
  · intro t ts acc e he
    simp [searchColumnsLoop, he]

/-- C7 amended witness: an all-success batch returns the flattened tagged
columns, and a batch whose first lookup fails aborts with that error. -/
theorem c7_column_search_aborts_on_failure_witness :
    searchColumns (fun _ => .ok (some [⟨"c1", "int"⟩])) [⟨some "db", "t1"⟩]
      = .ok (([⟨some "db", "t1"⟩].filter (fun t => jsTruthy t.database)).flatMap
          (fun t => columnsOfSuccess t (some [⟨"c1", "int"⟩])))
    ∧ searchColumnsLoop (fun _ => .error "boom")
        (⟨some "db", "t1"⟩ :: [⟨some "db", "t2"⟩]) []
      = .error "boom" :=
  ⟨(c7_column_search_aborts_on_failure (fun _ => .ok (some [⟨"c1", "int"⟩]))
      [⟨some "db", "t1"⟩]).1 (fun _ => some [⟨"c1", "int"⟩]) (by intro t ht; rfl),
   (c7_column_search_aborts_on_failure (fun _ => .error "boom") []).2
     ⟨some "db", "t1"⟩ [⟨some "db", "t2"⟩] [] "boom" rfl⟩

end AthenaDriver
